import Mathlib

/-!
Shallow embedding of the `decg` workspace-orchestration CLI
(`scripts/decg/cli.py`) and proofs about its sparse-checkout profile
resolution, sparse-checkout application, init loop, and the docs/release
commands.

The CLI is a sequence of shell invocations (`git`, `docker-compose`, `gh`),
filesystem probes and file writes.  We model a run of each relevant command
as the list of observable effects it produces (shell commands with their
working directory and fatality flag, file writes, directory creations and
operator-visible echo lines), together with an `Except` value recording
whether the command raised `typer.Exit` (the fatal-error mechanism of the CLI)
and with which exit code.

External state is supplied by two read-only oracles:
* `ShellEnv` gives the return code of each shell command (keyed by working
  directory and command line), mirroring `subprocess.run`;
* `FS` gives the filesystem observations the CLI makes (`Path.exists`,
  the parsed YAML document of a profile file, and the markdown files found
  by `Path.rglob("*.md")` relative to a directory).
-/

namespace Decg

/-- One observable effect of a CLI run: a shell command executed in a
working directory (`chk` is the `check` flag of `run_shell`: `true` means a
non-zero return code raises `typer.Exit`), a file write, a directory
creation (`mkdir`, covering both `mkdir(parents=True, ...)` and plain
`mkdir()`), or an echoed message. -/
inductive Event where
  | shell (cwd : String) (cmd : String) (chk : Bool)
  | write (path : String) (content : String)
  | mkdir (path : String)
  | echo (msg : String)
  deriving DecidableEq, Repr

/-- Return-code oracle for shell commands: `rc cwd cmd` is the return code
`subprocess.run(cmd, shell=True, cwd=cwd, ...)` would produce. -/
structure ShellEnv where
  rc : String → String → Nat

/-- A checkout scope from a sparse-profile document: the `include` and
`exclude` path lists of the entry of one submodule (a key absent in the YAML is
the empty list, mirroring `config.get("include", [])`). -/
structure CheckoutConfig where
  include' : List String
  exclude : List String
  deriving DecidableEq, Repr

/-- A parsed sparse-profile YAML document.  `submodules = none` models a
document without a top-level `submodules` key; `some subs` models
`{submodules: {...}}` as an association list in document order. -/
structure SparseProfile where
  submodules : Option (List (String × CheckoutConfig))
  deriving DecidableEq, Repr

/-- Filesystem oracle: `pathExists p` models `Path(p).exists()`;
`yamlDoc p` models `yaml.safe_load(open(p))` for a profile file (`none` is
YAML null, e.g. an empty file); `mdFilesUnder d` models the distinct
relative paths `[f.relative_to(d) for f in Path(d).rglob("*.md")]`. -/
structure FS where
  pathExists : String → Bool
  yamlDoc : String → Option SparseProfile
  mdFilesUnder : String → List String

/-- Python `sep.join(xs)`. -/
def pyJoin (sep : String) : List String → String
  | [] => ""
  | [x] => x
  | x :: y :: xs => x ++ sep ++ pyJoin sep (y :: xs)

/-- Split a character list on a separator character (the groups between
separators, in order; an empty input is one empty group). -/
def splitChars (sep : Char) : List Char → List (List Char)
  | [] => [[]]
  | c :: cs =>
    let r := splitChars sep cs
    if c = sep then [] :: r
    else
      match r with
      | [] => [[c]]
      | g :: gs => (c :: g) :: gs

/-- Python `Path(p).name`: the final `/`-separated path component. -/
def baseName (p : String) : String :=
  String.mk (((splitChars '/' p.data).reverse).headD [])

/-- Python `Path(p).is_absolute()` on POSIX. -/
def pathIsAbsolute (p : String) : Bool :=
  p.startsWith "/"

/-- Python `"=" * 50`, the separator line echoed by init. -/
def eqBar : String := String.mk (List.replicate 50 '=')

/-- `run_shell` (cli.py:59-66): echoes and runs a shell command; when
`chk` ("check") is set and the return code is non-zero it raises
`typer.Exit(returncode)`.  The echo of the command line itself is regarded
as part of the `shell` event. -/
def run_shell (env : ShellEnv) (cmd : String) (cwd : String) (chk : Bool) :
    List Event × Except Nat Nat :=
  let r := env.rc cwd cmd
  ([Event.shell cwd cmd chk], if chk ∧ r ≠ 0 then Except.error r else Except.ok r)

/-- `echo_success` (cli.py:69-70). -/
def echo_success (msg : String) : Event := Event.echo ("✅ " ++ msg)

/-- `echo_info` (cli.py:73-74). -/
def echo_info (msg : String) : Event := Event.echo ("ℹ️  " ++ msg)

/-- `echo_warning` (cli.py:77-78). -/
def echo_warning (msg : String) : Event := Event.echo ("⚠️  " ++ msg)

/-- Resolution of an explicitly supplied profile path (cli.py:89-91):
relative paths are taken relative to the hub root. -/
def explicitProfilePath (hub_root profile_path : String) : String :=
  if pathIsAbsolute profile_path then profile_path
  else hub_root ++ "/" ++ profile_path

/-- Conventional profile location (cli.py:94):
`configs/sparse-profiles/{service}-{version}.yaml` under the hub root. -/
def conventionalProfilePath (hub_root service version : String) : String :=
  hub_root ++ "/configs/sparse-profiles/" ++ service ++ "-" ++ version ++ ".yaml"

/-- `load_sparse_profile` (cli.py:85-99): pick the explicit or conventional
path, then load the YAML document if the file exists, else return `None`. -/
def load_sparse_profile (fs : FS) (hub_root service version : String)
    (profile_path : Option String) : Option SparseProfile :=
  let path :=
    match profile_path with
    | some pp => explicitProfilePath hub_root pp
    | none => conventionalProfilePath hub_root service version
  if fs.pathExists path then fs.yamlDoc path else none

/-- Python `dict` key lookup on an association list (first binding wins). -/
def dictLookup (k : String) : List (String × CheckoutConfig) → Option CheckoutConfig
  | [] => none
  | (k', v) :: rest => if k' = k then some v else dictLookup k rest

/-- `apply_sparse_checkout` (cli.py:102-138).  Python truthiness of the
lists (`if include_paths: ... elif exclude_paths: ...`) is the non-emptiness
test.  All shell commands here are invoked with `check=False`, so this
function never raises. -/
def apply_sparse_checkout (env : ShellEnv) (submodule_path : String)
    (config : CheckoutConfig) : List Event :=
  let include_paths := config.include'
  let exclude_paths := config.exclude
  [Event.echo ("  🔧 Sparse Checkout 활성화: " ++ baseName submodule_path)] ++
  if include_paths ≠ [] then
    (run_shell env "git sparse-checkout init --cone" submodule_path false).1 ++
    (run_shell env ("git sparse-checkout set " ++ pyJoin " " include_paths ++ " packages/")
      submodule_path false).1 ++
    include_paths.map (fun p => Event.echo ("    ✓ " ++ p))
  else if exclude_paths ≠ [] then
    (run_shell env "git sparse-checkout init --no-cone" submodule_path false).1 ++
    [Event.write (submodule_path ++ "/.git/info/sparse-checkout")
      (pyJoin "\n" ("/*" :: exclude_paths.map (fun p => "!/" ++ p)) ++ "\n")] ++
    (run_shell env "git read-tree -mu HEAD" submodule_path false).1 ++
    [Event.echo "    📂 전체 포함 (제외 항목 있음)"] ++
    exclude_paths.map (fun p => Event.echo ("    ✗ " ++ p ++ " (제외)"))
  else []

/-- The fixed submodule mapping of `init_workspace` (cli.py:198-202). -/
def all_submodules : List (String × String) :=
  [("decg-fe-monorepo", "apps/decg-fe-monorepo"),
   ("decg-be-monorepo", "apps/decg-be-monorepo"),
   ("decg-go-monorepo", "apps/decg-go-monorepo")]

/-- `target_submodules` (cli.py:206-218): with a profile carrying a
`submodules` mapping, only the submodules listed there are initialized;
otherwise all submodules are. -/
def target_submodules (sparse_profile : Option SparseProfile) : List (String × String) :=
  match sparse_profile with
  | some prof =>
    match prof.submodules with
    | some subs => all_submodules.filter (fun nr => (dictLookup nr.1 subs).isSome)
    | none => all_submodules
  | none => all_submodules

/-- `skipped_submodules` (cli.py:211-214): the known submodules left out by
the `submodules` mapping of the profile (empty when no such mapping exists). -/
def skipped_submodules (sparse_profile : Option SparseProfile) : List String :=
  match sparse_profile with
  | some prof =>
    match prof.submodules with
    | some subs => (all_submodules.map Prod.fst).filter (fun n => (dictLookup n subs).isNone)
    | none => []
  | none => []

/-- Per-submodule checkout-config resolution inside the init loop
(cli.py:228-235).  `modules` is the `--include` option list (`[]` models
both an absent option and an empty list, which Python treats alike). -/
def checkoutConfigFor (sparse_profile : Option SparseProfile) (modules : List String)
    (submodule_name : String) : CheckoutConfig :=
  match sparse_profile with
  | some prof =>
    match prof.submodules with
    | some subs =>
      match dictLookup submodule_name subs with
      | some cfg => cfg
      | none => ⟨[], []⟩
    | none =>
      if modules ≠ [] then ⟨modules.filter (fun m => ¬ m.startsWith "apps/"), []⟩
      else ⟨[], []⟩
  | none =>
    if modules ≠ [] then ⟨modules.filter (fun m => ¬ m.startsWith "apps/"), []⟩
    else ⟨[], []⟩

/-- The branch create-or-checkout step shared by the init loop
(cli.py:244-248): probe the branch with `git rev-parse --verify` (non-fatal),
then check out the existing branch (fatal on failure) or create it with
`checkout -b` (fatal on failure). -/
def branchSetup (env : ShellEnv) (cwd branch_name : String) :
    List Event × Except Nat Unit :=
  let (e1, r1) := run_shell env ("git rev-parse --verify " ++ branch_name) cwd false
  match r1 with
  | Except.error e => (e1, Except.error e)
  | Except.ok rc =>
    if rc = 0 then
      let (e2, r2) := run_shell env ("git checkout " ++ branch_name) cwd true
      (e1 ++ e2, r2.map fun _ => ())
    else
      let (e2, r2) := run_shell env ("git checkout -b " ++ branch_name) cwd true
      (e1 ++ e2, r2.map fun _ => ())

/-- Hub-branch setup at the start of `init_workspace` (cli.py:186-192):
same probe-then-checkout logic as `branchSetup`, with an info/success echo
after the (fatal) checkout succeeds. -/
def hubBranchSetup (env : ShellEnv) (hub_root workspace_branch : String) :
    List Event × Except Nat Unit :=
  let (e1, r1) := run_shell env ("git rev-parse --verify " ++ workspace_branch) hub_root false
  match r1 with
  | Except.error e => (e1, Except.error e)
  | Except.ok rc =>
    if rc = 0 then
      let (e2, r2) := run_shell env ("git checkout " ++ workspace_branch) hub_root true
      match r2 with
      | Except.ok _ =>
        (e1 ++ e2 ++ [echo_info ("기존 브랜치로 전환: " ++ workspace_branch)], Except.ok ())
      | Except.error e => (e1 ++ e2, Except.error e)
    else
      let (e2, r2) := run_shell env ("git checkout -b " ++ workspace_branch) hub_root true
      match r2 with
      | Except.ok _ =>
        (e1 ++ e2 ++ [echo_success ("새 브랜치 생성: " ++ workspace_branch)], Except.ok ())
      | Except.error e => (e1 ++ e2, Except.error e)

/-- The body of the init loop for one submodule (cli.py:220-248):
initialize the submodule if its path is missing (fatal on failure), apply
sparse checkout when the resolved config has include or exclude entries
(otherwise echo a full-checkout notice), then create or check out the
workspace branch. -/
def processSubmodule (env : ShellEnv) (fs : FS) (hub_root : String)
    (sparse_profile : Option SparseProfile) (modules : List String)
    (branch_name submodule_name submodule_relpath : String) :
    List Event × Except Nat Unit :=
  let submodule_path := hub_root ++ "/" ++ submodule_relpath
  let (e1, r1) :=
    if fs.pathExists submodule_path then ([], Except.ok 0)
    else run_shell env ("git submodule update --init --depth 1 " ++ submodule_relpath)
      hub_root true
  match r1 with
  | Except.error e => (e1, Except.error e)
  | Except.ok _ =>
    let checkout_config := checkoutConfigFor sparse_profile modules submodule_name
    let e2 :=
      if checkout_config.include' ≠ [] ∨ checkout_config.exclude ≠ [] then
        apply_sparse_checkout env submodule_path checkout_config
      else
        [Event.echo ("  📂 " ++ submodule_name ++ ": 전체 체크아웃")]
    let (e3, r3) := branchSetup env submodule_path branch_name
    (e1 ++ e2 ++ e3, r3)

/-- The multi-submodule loop of `init_workspace` (cli.py:220-248): each
entry is processed in order; a raised `typer.Exit` propagates, aborting the
remaining entries. -/
def initLoop (env : ShellEnv) (fs : FS) (hub_root : String)
    (sparse_profile : Option SparseProfile) (modules : List String)
    (branch_name : String) : List (String × String) → List Event × Except Nat Unit
  | [] => ([], Except.ok ())
  | nr :: rest =>
    let pr := processSubmodule env fs hub_root sparse_profile modules branch_name nr.1 nr.2
    match pr.2 with
    | Except.error e => (pr.1, Except.error e)
    | Except.ok _ =>
      let pr' := initLoop env fs hub_root sparse_profile modules branch_name rest
      (pr.1 ++ pr'.1, pr'.2)

/-- The fixed documentation folder names created by init (cli.py:261-268). -/
def doc_folders : List String :=
  ["01.requirements", "02.user-stories", "03.use-cases",
   "05.api-spec", "08.implementation-guide", "09.test-automation"]

/-- The three release files created by init step 3 (cli.py:273-276), with
the title `filename.replace(".md", "")` already evaluated for the three
concrete filenames. -/
def initReleaseFiles (version : String) : List (String × String) :=
  [("RELEASE-NOTES.md", "# RELEASE-NOTES\n\n## [" ++ version ++ "]\n\n"),
   ("VERSION-MATRIX.md", "# VERSION-MATRIX\n\n## [" ++ version ++ "]\n\n"),
   ("CHANGELOG.md", "# CHANGELOG\n\n## [" ++ version ++ "]\n\n")]

/-- `init_workspace` (cli.py:141-298).  The hub root is passed explicitly
(it is discovered by `get_hub_root` walking up from the current directory,
which is outside the modeled scope).  `modules` is the `--include` list
(`[]` when absent) and `profile` the `--profile` option. -/
def init_workspace (env : ShellEnv) (fs : FS) (hub_root : String)
    (service version : String) (modules : List String) (profile : Option String)
    (skip_docker : Bool) : List Event × Except Nat Unit :=
  let branch_name := service ++ "/develop/" ++ version
  let header :=
    [Event.echo ("\n🚀 워크스페이스 초기화: " ++ service ++ " " ++ version),
     Event.echo eqBar]
  let sparse_profile := load_sparse_profile fs hub_root service version profile
  let profEcho :=
    match sparse_profile with
    | some _ =>
      [echo_info ("Sparse Checkout 프로파일 로드됨: " ++ service ++ "-" ++ version ++ ".yaml")]
    | none =>
      if modules ≠ [] then
        [echo_info ("CLI 옵션으로 " ++ toString modules.length ++ "개 모듈 지정됨")]
      else []
  let step1 := Event.echo "\n📁 [1/4] Hub 브랜치 설정..."
  let workspace_branch := "workspace/" ++ service ++ "-" ++ version
  let hub := hubBranchSetup env hub_root workspace_branch
  match hub.2 with
  | Except.error e => (header ++ profEcho ++ [step1] ++ hub.1, Except.error e)
  | Except.ok _ =>
    let step2 := Event.echo "\n📦 [2/4] Submodule 초기화..."
    let targets := target_submodules sparse_profile
    let skipped := skipped_submodules sparse_profile
    let skipEcho :=
      if skipped ≠ [] then [echo_info ("제외된 Submodule: " ++ pyJoin ", " skipped)]
      else []
    let lp := initLoop env fs hub_root sparse_profile modules branch_name targets
    let pre := header ++ profEcho ++ [step1] ++ hub.1 ++ [step2] ++ skipEcho ++ lp.1
    match lp.2 with
    | Except.error e => (pre, Except.error e)
    | Except.ok _ =>
      let docs_path := hub_root ++ "/docs/" ++ service ++ "/" ++ version
      let releases_path := hub_root ++ "/releases/" ++ service ++ "/" ++ version
      let step3 :=
        [echo_success "Submodule 초기화 완료",
         Event.echo "\n📄 [3/4] 문서 디렉토리 생성...",
         Event.mkdir docs_path, Event.mkdir releases_path] ++
        doc_folders.map (fun f => Event.mkdir (docs_path ++ "/" ++ f)) ++
        ((initReleaseFiles version).filter
            (fun fc => ¬ fs.pathExists (releases_path ++ "/" ++ fc.1))).map
          (fun fc => Event.write (releases_path ++ "/" ++ fc.1) fc.2) ++
        [echo_success "문서 디렉토리 생성 완료"]
      let step4 :=
        if skip_docker then [Event.echo "\n⏭️  [4/4] Docker 환경 설정 건너뜀"]
        else
          [Event.echo "\n🐳 [4/4] Docker 환경 확인..."] ++
          (if fs.pathExists (hub_root ++ "/scripts/docker/docker-compose.dev.yml") then
            [echo_info "Docker Compose 파일 발견. \x27decg dev start\x27로 환경을 시작하세요."]
          else
            [echo_warning "Docker Compose 파일이 없습니다. 수동 설정이 필요합니다."])
      let final :=
        [Event.echo ("\n" ++ eqBar),
         echo_success ("워크스페이스 초기화 완료: " ++ service ++ " " ++ version),
         Event.echo "\n다음 단계:\n  1. decg dev start        # 개발 환경 시작\n  2. decg branch create    # 작업 브랜치 생성\n  3. 개발 시작!\n"]
      (pre ++ step3 ++ step4 ++ final, Except.ok ())

/-- The folder/README templates of `docs init` (cli.py:745-752). -/
def docsTemplates : List (String × String) :=
  [("01.requirements", "# 요구사항 정의\n\n## 기능 요구사항\n\n## 비기능 요구사항\n"),
   ("02.user-stories", "# 사용자 스토리\n\n## US-001: \n\n"),
   ("03.use-cases", "# 유즈케이스\n\n## UC-001: \n\n"),
   ("05.api-spec", "# API 명세\n\n## Endpoints\n\n"),
   ("08.implementation-guide", "# 구현 가이드\n\n## 기술 스택\n\n## 코딩 규칙\n\n"),
   ("09.test-automation", "# 테스트 자동화\n\n## 테스트 전략\n\n## 테스트 케이스\n\n")]

/-- `docs init` (cli.py:727-759): if the target version directory already
exists, warn and return (exit 0); otherwise create the tree and template
files.  No shell command is ever run, so the command never raises. -/
def docs_init (fs : FS) (hub_root service version : String) :
    List Event × Except Nat Unit :=
  let docs_path := hub_root ++ "/docs/" ++ service ++ "/" ++ version
  if fs.pathExists docs_path then
    ([echo_warning ("이미 존재합니다: docs/" ++ service ++ "/" ++ version)], Except.ok ())
  else
    ([Event.echo ("\n📄 문서 템플릿 생성: " ++ service ++ " " ++ version),
      Event.mkdir docs_path] ++
     docsTemplates.flatMap (fun fc =>
       [Event.mkdir (docs_path ++ "/" ++ fc.1),
        Event.write (docs_path ++ "/" ++ fc.1 ++ "/README.md") fc.2]) ++
     [echo_success ("문서 템플릿 생성 완료: docs/" ++ service ++ "/" ++ version)],
     Except.ok ())

/-- `release init` (cli.py:827-879): if the target version directory already
exists, warn and return (exit 0); otherwise create the folder and the three
boilerplate files. -/
def release_init (fs : FS) (hub_root service version : String) :
    List Event × Except Nat Unit :=
  let releases_path := hub_root ++ "/releases/" ++ service ++ "/" ++ version
  if fs.pathExists releases_path then
    ([echo_warning ("이미 존재합니다: releases/" ++ service ++ "/" ++ version)], Except.ok ())
  else
    ([Event.echo ("\n📦 릴리스 폴더 생성: " ++ service ++ " " ++ version),
      Event.mkdir releases_path,
      Event.write (releases_path ++ "/RELEASE-NOTES.md")
        ("# Release Notes - " ++ version ++
         "\n\n## 개요\n\n## 주요 변경사항\n\n### 새 기능\n\n### 개선사항\n\n### 버그 수정\n\n## 알려진 이슈\n\n## 업그레이드 가이드\n"),
      Event.write (releases_path ++ "/VERSION-MATRIX.md")
        ("# Version Matrix - " ++ version ++
         "\n\n| 기능 ID | 기능명 | 상태 | 비고 |\n|--------|-------|------|------|\n|  |  |  |  |\n"),
      Event.write (releases_path ++ "/CHANGELOG.md")
        ("# Changelog\n\n## [" ++ version ++ "] - TBD\n\n### Added\n\n### Changed\n\n### Removed\n"),
      echo_success ("릴리스 폴더 생성 완료: releases/" ++ service ++ "/" ++ version)],
     Except.ok ())

/-- The results of the set computation in `docs diff` (cli.py:803-805). -/
structure DocsDiffResult where
  added : List String
  removed : List String
  common : List String
  deriving DecidableEq, Repr

/-- The set operations of `docs diff` (cli.py:800-805): `added = files2 -
files1`, `removed = files1 - files2`, `common = files1 & files2`.  Python
set values are represented as the sub-lists of the distinct `rglob`
listings, so membership is the faithful notion of set equality. -/
def docsDiffSets (files1 files2 : List String) : DocsDiffResult :=
  { added := files2.filter (fun f => decide (f ∉ files1))
    removed := files1.filter (fun f => decide (f ∉ files2))
    common := files1.filter (fun f => decide (f ∈ files2)) }

/-- `docs diff` (cli.py:782-817): exit 1 when either version directory is
missing; otherwise compute the added/removed/common sets of relative
markdown paths (the command only echoes them; the computed sets are
returned here for specification purposes). -/
def docs_diff (fs : FS) (hub_root service v1 v2 : String) : Except Nat DocsDiffResult :=
  let path1 := hub_root ++ "/docs/" ++ service ++ "/" ++ v1
  let path2 := hub_root ++ "/docs/" ++ service ++ "/" ++ v2
  if ¬ fs.pathExists path1 ∨ ¬ fs.pathExists path2 then Except.error 1
  else Except.ok (docsDiffSets (fs.mdFilesUnder path1) (fs.mdFilesUnder path2))

/-- The repository mapping of `branch create` (cli.py:553-557). -/
def repo_map : List (String × String) :=
  [("fe", "apps/decg-fe-monorepo"),
   ("be", "apps/decg-be-monorepo"),
   ("go", "apps/decg-go-monorepo")]

/-- Lookup in `repo_map`. -/
def repoLookup (k : String) : List (String × String) → Option String
  | [] => none
  | (k', v) :: rest => if k' = k then some v else repoLookup k rest

/-- The per-repository loop of `branch create` (cli.py:561-573): an unknown
key or a missing repository path is warned about and skipped (`continue`);
otherwise `git checkout -b` is run fatally (`check=True`). -/
def branchCreateLoop (env : ShellEnv) (fs : FS) (hub_root branch_name : String) :
    List String → List Event × Except Nat Unit
  | [] => ([], Except.ok ())
  | key :: rest =>
    match repoLookup key repo_map with
    | none =>
      let pr := branchCreateLoop env fs hub_root branch_name rest
      (echo_warning ("알 수 없는 저장소: " ++ key) :: pr.1, pr.2)
    | some relpath =>
      if ¬ fs.pathExists (hub_root ++ "/" ++ relpath) then
        let pr := branchCreateLoop env fs hub_root branch_name rest
        (echo_warning ("저장소가 없습니다: " ++ relpath) :: pr.1, pr.2)
      else
        let (e1, r1) := run_shell env ("git checkout -b " ++ branch_name)
          (hub_root ++ "/" ++ relpath) true
        match r1 with
        | Except.error e =>
          ([Event.echo ("\n  📁 " ++ relpath ++ "...")] ++ e1, Except.error e)
        | Except.ok _ =>
          let pr := branchCreateLoop env fs hub_root branch_name rest
          ([Event.echo ("\n  📁 " ++ relpath ++ "...")] ++ e1 ++
            [echo_success ("브랜치 생성됨: " ++ branch_name)] ++ pr.1, pr.2)

/-- `branch create` (cli.py:529-573): build the task branch name, default
the target repositories to `["fe", "be"]` when `--repo` is absent or empty
(Python `repos or ["fe", "be"]`), and run the per-repository loop. -/
def branch_create (env : ShellEnv) (fs : FS) (hub_root task_id description : String)
    (repos : Option (List String)) : List Event × Except Nat Unit :=
  let branch_name := "task/" ++ task_id ++ "-" ++ description
  let target_repos :=
    match repos with
    | none => ["fe", "be"]
    | some rs => if rs = [] then ["fe", "be"] else rs
  let pr := branchCreateLoop env fs hub_root branch_name target_repos
  (Event.echo ("\n🌿 작업 브랜치 생성: " ++ branch_name) :: pr.1, pr.2)

/-- The command `branchSetup` runs fatally after probing: check out the
existing branch when `git rev-parse --verify` succeeded, else create it
with `checkout -b`. -/
def branchCmd (env : ShellEnv) (cwd b : String) : String :=
  if env.rc cwd ("git rev-parse --verify " ++ b) = 0
  then "git checkout " ++ b else "git checkout -b " ++ b

/-- An all-zero return-code oracle (every shell command succeeds). -/
def env0 : ShellEnv := ⟨fun _ _ => 0⟩

/-- A filesystem where no path exists. -/
def fsEmpty : FS := ⟨fun _ => false, fun _ => none, fun _ => []⟩

/-- A filesystem where every path exists (and profile/markdown probes are
empty). -/
def fsAll : FS := ⟨fun _ => true, fun _ => none, fun _ => []⟩

/-- A return-code oracle where only `git checkout svc/develop/v1` fails. -/
def envCoFail : ShellEnv :=
  ⟨fun _ cmd => if cmd = "git checkout svc/develop/v1" then 1 else 0⟩

/-- A profile document whose `submodules` mapping lists only the frontend
submodule. -/
def profOnlyFe : SparseProfile :=
  ⟨some [("decg-fe-monorepo", ⟨["apps/x"], []⟩)]⟩

/-- A filesystem where every path exists and every profile file parses to
`profOnlyFe`. -/
def fsProf : FS := ⟨fun _ => true, fun _ => some profOnlyFe, fun _ => []⟩

/-- A filesystem holding two documentation trees with literal markdown file
sets for the `docs diff` example. -/
def fsDocs : FS :=
  ⟨fun _ => true, fun _ => none,
   fun d =>
     if d = "/h/docs/svc/v1" then ["a.md", "b.md"]
     else if d = "/h/docs/svc/v2" then ["b.md", "c.md"]
     else []⟩

deriving instance DecidableEq for Except

/-! ## Helper lemmas -/

/-- Appending one element to a non-empty joined list appends one separator
and the element (Python `sep.join(l + [x])`). -/
theorem pyJoin_concat (s x : String) : ∀ l : List String, l ≠ [] →
    pyJoin s (l ++ [x]) = pyJoin s l ++ s ++ x
  | [], h => absurd rfl h
  | [a], _ => by simp [pyJoin]
  | a :: b :: t, _ => by
    have ih := pyJoin_concat s x (b :: t) (by simp)
    show a ++ s ++ pyJoin s ((b :: t) ++ [x]) = pyJoin s (a :: b :: t) ++ s ++ x
    rw [ih]
    simp [pyJoin, String.append_assoc]

/-- The branch step runs exactly the probe and then the chosen (fatal)
checkout command, failing exactly when that command fails. -/
theorem branchSetup_spec (env : ShellEnv) (cwd b : String) :
    branchSetup env cwd b =
      ([Event.shell cwd ("git rev-parse --verify " ++ b) false,
        Event.shell cwd (branchCmd env cwd b) true],
       if env.rc cwd (branchCmd env cwd b) = 0 then Except.ok ()
       else Except.error (env.rc cwd (branchCmd env cwd b))) := by
  by_cases h : env.rc cwd ("git rev-parse --verify " ++ b) = 0 <;>
    by_cases h2 : env.rc cwd (branchCmd env cwd b) = 0 <;>
      simp_all [branchSetup, run_shell, branchCmd, Except.map]

/-- Checking out a branch and creating it are distinct commands. -/
theorem checkout_ne_checkout_b (b : String) :
    ("git checkout " ++ b) ≠ ("git checkout -b " ++ b) := by
  intro h
  have h2 := congrArg String.length h
  simp [String.length_append] at h2
  exact absurd h2 (by decide)

/-- Probing a branch and creating it are distinct commands. -/
theorem rev_parse_ne_checkout_b (b : String) :
    ("git rev-parse --verify " ++ b) ≠ ("git checkout -b " ++ b) := by
  intro h
  have h2 := congrArg String.length h
  simp [String.length_append] at h2
  exact absurd h2 (by decide)

/-! ## Claim theorems -/

/-- C1: exactly one sparse-checkout mode is active per scope.  (a) With a
non-empty include list the applier behaves identically for every exclude
list (exclude is ignored), enables cone mode and writes no pattern file;
(b) with an empty include list and a non-empty exclude list it enables
non-cone (EXCLUDE) mode and never enables cone mode; (c) when the resolved
config has both lists empty, the init-loop body does not invoke the applier
at all: it only echoes the full-checkout notice and runs the branch step,
writing no file. -/
theorem sparse_mode_exclusive :
    (∀ (env : ShellEnv) (p : String) (inc exc exc' : List String), inc ≠ [] →
      apply_sparse_checkout env p ⟨inc, exc⟩ = apply_sparse_checkout env p ⟨inc, exc'⟩ ∧
      Event.shell p "git sparse-checkout init --cone" false ∈
        apply_sparse_checkout env p ⟨inc, exc⟩ ∧
      (∀ pa c, Event.write pa c ∉ apply_sparse_checkout env p ⟨inc, exc⟩)) ∧
    (∀ (env : ShellEnv) (p : String) (exc : List String), exc ≠ [] →
      Event.shell p "git sparse-checkout init --no-cone" false ∈
        apply_sparse_checkout env p ⟨[], exc⟩ ∧
      Event.shell p "git sparse-checkout init --cone" false ∉
        apply_sparse_checkout env p ⟨[], exc⟩) ∧
    (∀ (env : ShellEnv) (fs : FS) (hub_root : String) (prof : Option SparseProfile)
        (mods : List String) (b name relpath : String),
      checkoutConfigFor prof mods name = ⟨[], []⟩ →
      fs.pathExists (hub_root ++ "/" ++ relpath) = true →
      (processSubmodule env fs hub_root prof mods b name relpath).1 =
        Event.echo ("  📂 " ++ name ++ ": 전체 체크아웃") ::
          (branchSetup env (hub_root ++ "/" ++ relpath) b).1 ∧
      (∀ pa c, Event.write pa c ∉
        (processSubmodule env fs hub_root prof mods b name relpath).1)) := by
  refine ⟨fun env p inc exc exc' h => ⟨?_, ?_, ?_⟩,
    fun env p exc h => ⟨?_, ?_⟩,
    fun env fs hr prof mods b name relpath hcfg hex => ⟨?_, ?_⟩⟩
  · simp [apply_sparse_checkout, h]
  · simp [apply_sparse_checkout, run_shell, h]
  · simp [apply_sparse_checkout, run_shell, h]
  · simp [apply_sparse_checkout, run_shell, h]
  · simp [apply_sparse_checkout, run_shell, h]
  · simp [processSubmodule, hcfg, hex]
  · simp [processSubmodule, hcfg, hex, branchSetup_spec]

/-- C1 witness: at a concrete scope with a non-empty include list, the
applier ignores the exclude list. -/
theorem sparse_mode_exclusive_witness :
    (["apps/x"] ≠ ([] : List String)) ∧
    apply_sparse_checkout env0 "/h/apps/decg-fe-monorepo" ⟨["apps/x"], ["secrets/"]⟩ =
      apply_sparse_checkout env0 "/h/apps/decg-fe-monorepo" ⟨["apps/x"], []⟩ :=
  ⟨by decide,
   (sparse_mode_exclusive.1 env0 "/h/apps/decg-fe-monorepo" ["apps/x"] ["secrets/"] []
     (by decide)).1⟩

/-- C2: for a scope with empty include and non-empty exclude, the applier
enables non-cone mode, writes the pattern file whose line sequence is
exactly the universal include followed by one negation line per excluded
path in order, and then runs `git read-tree -mu HEAD`. -/
theorem exclude_pattern_file_trace (env : ShellEnv) (p : String) (exc : List String)
    (h : exc ≠ []) :
    apply_sparse_checkout env p ⟨[], exc⟩ =
      [Event.echo ("  🔧 Sparse Checkout 활성화: " ++ baseName p),
       Event.shell p "git sparse-checkout init --no-cone" false,
       Event.write (p ++ "/.git/info/sparse-checkout")
         (pyJoin "\n" ("/*" :: exc.map (fun q => "!/" ++ q)) ++ "\n"),
       Event.shell p "git read-tree -mu HEAD" false,
       Event.echo "    📂 전체 포함 (제외 항목 있음)"] ++
      exc.map (fun q => Event.echo ("    ✗ " ++ q ++ " (제외)")) := by
  simp [apply_sparse_checkout, run_shell, h]

/-- C2 witness: for the exclude scope `{exclude: [secrets/]}` the pattern
file content is exactly the lines `/*` then `!/secrets/`, followed by the
re-materialization command. -/
theorem exclude_pattern_file_trace_witness :
    (["secrets/"] ≠ ([] : List String)) ∧
    apply_sparse_checkout env0 "/h/apps/decg-be-monorepo" ⟨[], ["secrets/"]⟩ =
      [Event.echo "  🔧 Sparse Checkout 활성화: decg-be-monorepo",
       Event.shell "/h/apps/decg-be-monorepo" "git sparse-checkout init --no-cone" false,
       Event.write "/h/apps/decg-be-monorepo/.git/info/sparse-checkout" "/*\n!/secrets/\n",
       Event.shell "/h/apps/decg-be-monorepo" "git read-tree -mu HEAD" false,
       Event.echo "    📂 전체 포함 (제외 항목 있음)",
       Event.echo "    ✗ secrets/ (제외)"] :=
  ⟨by decide,
   (exclude_pattern_file_trace env0 "/h/apps/decg-be-monorepo" ["secrets/"]
     (by decide)).trans (by decide)⟩

/-- C6: for a scope with a non-empty include list the applier enables
cone-style sparse checkout, sets the checkout set to exactly the listed
paths plus the fixed `packages/` path, and echoes each listed path. -/
theorem include_mode_trace (env : ShellEnv) (p : String) (inc exc : List String)
    (h : inc ≠ []) :
    apply_sparse_checkout env p ⟨inc, exc⟩ =
      [Event.echo ("  🔧 Sparse Checkout 활성화: " ++ baseName p),
       Event.shell p "git sparse-checkout init --cone" false,
       Event.shell p ("git sparse-checkout set " ++ pyJoin " " (inc ++ ["packages/"]))
         false] ++
      inc.map (fun q => Event.echo ("    ✓ " ++ q)) := by
  have hp : pyJoin " " (inc ++ ["packages/"]) = pyJoin " " inc ++ " " ++ "packages/" :=
    pyJoin_concat " " "packages/" inc h
  simp [apply_sparse_checkout, run_shell, h, hp, String.append_assoc]

/-- C6 witness: a concrete include scope yields exactly the cone-mode
commands with the listed path plus `packages/`, and echoes the path. -/
theorem include_mode_trace_witness :
    (["apps/sftp-monitor"] ≠ ([] : List String)) ∧
    apply_sparse_checkout env0 "/h/apps/decg-fe-monorepo" ⟨["apps/sftp-monitor"], []⟩ =
      [Event.echo "  🔧 Sparse Checkout 활성화: decg-fe-monorepo",
       Event.shell "/h/apps/decg-fe-monorepo" "git sparse-checkout init --cone" false,
       Event.shell "/h/apps/decg-fe-monorepo"
         "git sparse-checkout set apps/sftp-monitor packages/" false,
       Event.echo "    ✓ apps/sftp-monitor"] :=
  ⟨by decide,
   (include_mode_trace env0 "/h/apps/decg-fe-monorepo" ["apps/sftp-monitor"] []
     (by decide)).trans (by decide)⟩

/-- C7: when the target branch already exists (the `git rev-parse --verify`
probe returns 0) and checking it out succeeds, both the hub branch step and
the per-submodule branch step of init check the branch out, never run
`git checkout -b`, and finish without raising — so a second identical init
run does not fail at branch creation. -/
theorem existing_branch_checked_out (env : ShellEnv) (cwd b : String)
    (h1 : env.rc cwd ("git rev-parse --verify " ++ b) = 0)
    (h2 : env.rc cwd ("git checkout " ++ b) = 0) :
    (branchSetup env cwd b).2 = Except.ok () ∧
    Event.shell cwd ("git checkout " ++ b) true ∈ (branchSetup env cwd b).1 ∧
    Event.shell cwd ("git checkout -b " ++ b) true ∉ (branchSetup env cwd b).1 ∧
    (hubBranchSetup env cwd b).2 = Except.ok () ∧
    Event.shell cwd ("git checkout " ++ b) true ∈ (hubBranchSetup env cwd b).1 ∧
    Event.shell cwd ("git checkout -b " ++ b) true ∉ (hubBranchSetup env cwd b).1 := by
  have hne := checkout_ne_checkout_b b
  have hne2 := rev_parse_ne_checkout_b b
  refine ⟨?_, ?_, ?_, ?_, ?_, ?_⟩ <;>
    simp [branchSetup, hubBranchSetup, run_shell, echo_info, h1, h2, Except.map,
      Ne.symm hne, Ne.symm hne2]

/-- C7 witness: with every command succeeding, a pre-existing workspace
branch is checked out and the branch step succeeds. -/
theorem existing_branch_checked_out_witness :
    (env0.rc "/h" ("git rev-parse --verify " ++ "workspace/svc-v1") = 0) ∧
    (branchSetup env0 "/h" "workspace/svc-v1").2 = Except.ok () :=
  ⟨by decide,
   (existing_branch_checked_out env0 "/h" "workspace/svc-v1" (by decide) (by decide)).1⟩

/-- C3 counterexample: with an explicit profile path that does not exist,
the resolver returns `none` — the very same "no profile" value as the
no-argument fallback — instead of failing with a NotFound error, and the
init run still issues git commands (the hub branch probe below). -/
theorem explicit_profile_missing_returns_none :
    load_sparse_profile fsEmpty "/hub" "svc" "v1" (some "missing.yaml") = none ∧
    load_sparse_profile fsEmpty "/hub" "svc" "v1" none = none ∧
    Event.shell "/hub" "git rev-parse --verify workspace/svc-v1" false ∈
      (init_workspace env0 fsEmpty "/hub" "svc" "v1" [] (some "missing.yaml") true).1 := by
  refine ⟨rfl, rfl, ?_⟩
  decide

/-- C3 amended: with an explicit profile path that does not exist (after
resolving a relative path against the workspace root), the resolver returns
`none`, i.e. it silently falls back to "no profile"; when the conventional
profile path is also absent, the whole init run is identical to one invoked
without `--profile`. -/
theorem explicit_profile_missing_falls_back
    (fs : FS) (hub_root service version pp : String)
    (h : fs.pathExists (explicitProfilePath hub_root pp) = false) :
    load_sparse_profile fs hub_root service version (some pp) = none ∧
    (fs.pathExists (conventionalProfilePath hub_root service version) = false →
      ∀ (env : ShellEnv) (modules : List String) (sd : Bool),
        init_workspace env fs hub_root service version modules (some pp) sd =
          init_workspace env fs hub_root service version modules none sd) := by
  have h1 : load_sparse_profile fs hub_root service version (some pp) = none := by
    simp [load_sparse_profile, h]
  refine ⟨h1, fun h2 env modules sd => ?_⟩
  have h3 : load_sparse_profile fs hub_root service version none = none := by
    simp [load_sparse_profile, h2]
  simp only [init_workspace, h1, h3]

/-- C3 amended witness: concrete missing explicit path resolves to no
profile. -/
theorem explicit_profile_missing_falls_back_witness :
    (fsEmpty.pathExists (explicitProfilePath "/hub" "absent.yaml") = false) ∧
    load_sparse_profile fsEmpty "/hub" "svc" "v2" (some "absent.yaml") = none :=
  ⟨by decide,
   (explicit_profile_missing_falls_back fsEmpty "/hub" "svc" "v2" "absent.yaml"
     (by decide)).1⟩

/-- C4 counterexample: with a profile listing only the frontend submodule,
the backend and go submodules are dropped from the init targets, reported
as excluded, and the init run issues no shell command in (and no
full-checkout processing of) the backend submodule — they do not
participate in initialization at all. -/
theorem unlisted_submodule_skipped_cex :
    target_submodules (some profOnlyFe) = [("decg-fe-monorepo", "apps/decg-fe-monorepo")] ∧
    skipped_submodules (some profOnlyFe) = ["decg-be-monorepo", "decg-go-monorepo"] ∧
    ((init_workspace env0 fsProf "/h" "svc" "v1" [] none true).1.filter
        (fun e =>
          match e with
          | Event.shell cwd _ _ => cwd == "/h/apps/decg-be-monorepo"
          | _ => false)) = [] ∧
    Event.echo "  📂 decg-be-monorepo: 전체 체크아웃" ∉
      (init_workspace env0 fsProf "/h" "svc" "v1" [] none true).1 ∧
    Event.echo "ℹ️  제외된 Submodule: decg-be-monorepo, decg-go-monorepo" ∈
      (init_workspace env0 fsProf "/h" "svc" "v1" [] none true).1 := by
  refine ⟨by decide, by decide, by decide, by decide, by decide⟩

/-- C4 amended: with a top-level `submodules` mapping in the profile, a
known submodule participates in initialization exactly when its name is
listed in the mapping; an unlisted known submodule is excluded from the
init loop entirely (and reported in the skipped list), rather than being
initialized as a full checkout. -/
theorem submodules_mapping_filters_init (subs : List (String × CheckoutConfig))
    (n r : String) :
    ((n, r) ∈ target_submodules (some ⟨some subs⟩) ↔
      (n, r) ∈ all_submodules ∧ (dictLookup n subs).isSome = true) ∧
    (n ∈ skipped_submodules (some ⟨some subs⟩) ↔
      n ∈ all_submodules.map Prod.fst ∧ dictLookup n subs = none) := by
  constructor
  · simp [target_submodules, List.mem_filter]
  · simp [skipped_submodules, List.mem_filter, Option.isNone_iff_eq_none]

/-- C5 counterexample: a failing (fatal) `git checkout` for the first
branch step of the first submodule raises `typer.Exit(1)` and aborts the whole init
loop — the second submodule is never processed, contradicting the claim
that any per-submodule failure leaves the remaining submodules
unaffected. -/
theorem branch_failure_aborts_loop_cex :
    initLoop envCoFail fsAll "/h" none [] "svc/develop/v1"
        [("decg-fe-monorepo", "apps/decg-fe-monorepo"),
         ("decg-be-monorepo", "apps/decg-be-monorepo")] =
      ([Event.echo "  📂 decg-fe-monorepo: 전체 체크아웃",
        Event.shell "/h/apps/decg-fe-monorepo" "git rev-parse --verify svc/develop/v1" false,
        Event.shell "/h/apps/decg-fe-monorepo" "git checkout svc/develop/v1" true],
       Except.error 1) ∧
    Event.echo "  📂 decg-be-monorepo: 전체 체크아웃" ∉
      (initLoop envCoFail fsAll "/h" none [] "svc/develop/v1"
        [("decg-fe-monorepo", "apps/decg-fe-monorepo"),
         ("decg-be-monorepo", "apps/decg-be-monorepo")]).1 := by
  refine ⟨by decide, by decide⟩

/-- C5 amended: failures inside sparse-checkout application never abort the
loop — every shell command the applier issues is non-fatal (`check=False`),
and the outcome of the body is entirely independent of their return codes
(part iii: it depends only on the submodule-update, branch-probe and
branch-checkout commands) — but a fatal failure of the submodule-update or
branch checkout/creation step aborts the loop, leaving the remaining
submodules unprocessed (part ii). -/
theorem sparse_nonfatal_branch_fatal :
    (∀ (env : ShellEnv) (p : String) (cfg : CheckoutConfig) (cwd c : String) (chk : Bool),
      Event.shell cwd c chk ∈ apply_sparse_checkout env p cfg → chk = false) ∧
    (∀ (env : ShellEnv) (fs : FS) (hub_root : String) (prof : Option SparseProfile)
        (mods : List String) (b name relpath : String) (rest : List (String × String))
        (ev : List Event) (e : Nat),
      processSubmodule env fs hub_root prof mods b name relpath = (ev, Except.error e) →
      initLoop env fs hub_root prof mods b ((name, relpath) :: rest) =
        (ev, Except.error e)) ∧
    (∀ (env env' : ShellEnv) (fs : FS) (hub_root : String) (prof : Option SparseProfile)
        (mods : List String) (b name relpath : String),
      env.rc hub_root ("git submodule update --init --depth 1 " ++ relpath) =
        env'.rc hub_root ("git submodule update --init --depth 1 " ++ relpath) →
      env.rc (hub_root ++ "/" ++ relpath) ("git rev-parse --verify " ++ b) =
        env'.rc (hub_root ++ "/" ++ relpath) ("git rev-parse --verify " ++ b) →
      env.rc (hub_root ++ "/" ++ relpath) ("git checkout " ++ b) =
        env'.rc (hub_root ++ "/" ++ relpath) ("git checkout " ++ b) →
      env.rc (hub_root ++ "/" ++ relpath) ("git checkout -b " ++ b) =
        env'.rc (hub_root ++ "/" ++ relpath) ("git checkout -b " ++ b) →
      processSubmodule env fs hub_root prof mods b name relpath =
        processSubmodule env' fs hub_root prof mods b name relpath) := by
  refine ⟨?_, ?_, ?_⟩
  · intro env p cfg cwd c chk h
    by_cases h1 : cfg.include' = []
    · by_cases h2 : cfg.exclude = []
      · simp [apply_sparse_checkout, run_shell, h1, h2] at h
      · simp [apply_sparse_checkout, run_shell, h1, h2] at h
        rcases h with ⟨_, _, h⟩ | ⟨_, _, h⟩ <;> simp [h]
    · simp [apply_sparse_checkout, run_shell, h1] at h
      rcases h with ⟨_, _, h⟩ | ⟨_, _, h⟩ <;> simp [h]
  · intro env fs hub_root prof mods b name relpath rest ev e h
    simp [initLoop, h]
  · intro env env' fs hub_root prof mods b name relpath h_up h_rev h_co h_cob
    have hb : branchSetup env (hub_root ++ "/" ++ relpath) b =
        branchSetup env' (hub_root ++ "/" ++ relpath) b := by
      rw [branchSetup_spec, branchSetup_spec, branchCmd, branchCmd, h_rev]
      by_cases h : env'.rc (hub_root ++ "/" ++ relpath)
          ("git rev-parse --verify " ++ b) = 0 <;>
        simp [h, h_co, h_cob]
    have ha : ∀ cfg, apply_sparse_checkout env (hub_root ++ "/" ++ relpath) cfg =
        apply_sparse_checkout env' (hub_root ++ "/" ++ relpath) cfg := fun _ => rfl
    by_cases hex : fs.pathExists (hub_root ++ "/" ++ relpath)
    · simp [processSubmodule, hex, hb, ha]
    · simp only [processSubmodule, hex, run_shell, Bool.false_eq_true, if_false, h_up]
      split <;> simp [hb, ha]

/-- C5 witness: a concrete aborted loop obtained from part (ii) at a
failing branch checkout. -/
theorem sparse_nonfatal_branch_fatal_witness :
    initLoop envCoFail fsAll "/w" none [] "svc/develop/v1"
        [("decg-fe-monorepo", "apps/decg-fe-monorepo"),
         ("decg-go-monorepo", "apps/decg-go-monorepo")] =
      ([Event.echo "  📂 decg-fe-monorepo: 전체 체크아웃",
        Event.shell "/w/apps/decg-fe-monorepo" "git rev-parse --verify svc/develop/v1" false,
        Event.shell "/w/apps/decg-fe-monorepo" "git checkout svc/develop/v1" true],
       Except.error 1) :=
  sparse_nonfatal_branch_fatal.2.1 envCoFail fsAll "/w" none [] "svc/develop/v1"
    "decg-fe-monorepo" "apps/decg-fe-monorepo"
    [("decg-go-monorepo", "apps/decg-go-monorepo")]
    [Event.echo "  📂 decg-fe-monorepo: 전체 체크아웃",
     Event.shell "/w/apps/decg-fe-monorepo" "git rev-parse --verify svc/develop/v1" false,
     Event.shell "/w/apps/decg-fe-monorepo" "git checkout svc/develop/v1" true]
    1 (by decide)

/-- C8: when both documentation version trees exist, `docs diff` succeeds
and computes `added = files2 - files1`, `removed = files1 - files2` and
`common = files1 ∩ files2` over the markdown paths relative to their
version directories (element-wise characterization of the three sets). -/
theorem docs_diff_set_ops (fs : FS) (hub_root service v1 v2 x : String)
    (h1 : fs.pathExists (hub_root ++ "/docs/" ++ service ++ "/" ++ v1) = true)
    (h2 : fs.pathExists (hub_root ++ "/docs/" ++ service ++ "/" ++ v2) = true) :
    docs_diff fs hub_root service v1 v2 =
      Except.ok (docsDiffSets
        (fs.mdFilesUnder (hub_root ++ "/docs/" ++ service ++ "/" ++ v1))
        (fs.mdFilesUnder (hub_root ++ "/docs/" ++ service ++ "/" ++ v2))) ∧
    (x ∈ (docsDiffSets
        (fs.mdFilesUnder (hub_root ++ "/docs/" ++ service ++ "/" ++ v1))
        (fs.mdFilesUnder (hub_root ++ "/docs/" ++ service ++ "/" ++ v2))).added ↔
      x ∈ fs.mdFilesUnder (hub_root ++ "/docs/" ++ service ++ "/" ++ v2) ∧
      x ∉ fs.mdFilesUnder (hub_root ++ "/docs/" ++ service ++ "/" ++ v1)) ∧
    (x ∈ (docsDiffSets
        (fs.mdFilesUnder (hub_root ++ "/docs/" ++ service ++ "/" ++ v1))
        (fs.mdFilesUnder (hub_root ++ "/docs/" ++ service ++ "/" ++ v2))).removed ↔
      x ∈ fs.mdFilesUnder (hub_root ++ "/docs/" ++ service ++ "/" ++ v1) ∧
      x ∉ fs.mdFilesUnder (hub_root ++ "/docs/" ++ service ++ "/" ++ v2)) ∧
    (x ∈ (docsDiffSets
        (fs.mdFilesUnder (hub_root ++ "/docs/" ++ service ++ "/" ++ v1))
        (fs.mdFilesUnder (hub_root ++ "/docs/" ++ service ++ "/" ++ v2))).common ↔
      x ∈ fs.mdFilesUnder (hub_root ++ "/docs/" ++ service ++ "/" ++ v1) ∧
      x ∈ fs.mdFilesUnder (hub_root ++ "/docs/" ++ service ++ "/" ++ v2)) := by
  refine ⟨by simp [docs_diff, h1, h2], ?_, ?_, ?_⟩ <;>
    simp [docsDiffSets, List.mem_filter]

/-- C8 witness: on the literal file sets files1 = a.md, b.md and
files2 = b.md, c.md, the file c.md is in `added` exactly because it is in
files2 and not in files1. -/
theorem docs_diff_set_ops_witness :
    (fsDocs.pathExists "/h/docs/svc/v1" = true) ∧
    ("c.md" ∈ (docsDiffSets ["a.md", "b.md"] ["b.md", "c.md"]).added ↔
      "c.md" ∈ ["b.md", "c.md"] ∧ "c.md" ∉ ["a.md", "b.md"]) :=
  ⟨by decide,
   (docs_diff_set_ops fsDocs "/h" "svc" "v1" "v2" "c.md" (by decide) (by decide)).2.1⟩

/-- C9: when the target version directory already exists, `docs init` and
`release init` each echo only a warning and return successfully (no raised
exit), creating no directory and writing no file. -/
theorem init_existing_dir_noop (fs : FS) (hub_root service version : String)
    (h1 : fs.pathExists (hub_root ++ "/docs/" ++ service ++ "/" ++ version) = true)
    (h2 : fs.pathExists (hub_root ++ "/releases/" ++ service ++ "/" ++ version) = true) :
    docs_init fs hub_root service version =
      ([echo_warning ("이미 존재합니다: docs/" ++ service ++ "/" ++ version)],
       Except.ok ()) ∧
    release_init fs hub_root service version =
      ([echo_warning ("이미 존재합니다: releases/" ++ service ++ "/" ++ version)],
       Except.ok ()) ∧
    (∀ pa c, Event.write pa c ∉ (docs_init fs hub_root service version).1) ∧
    (∀ pa, Event.mkdir pa ∉ (docs_init fs hub_root service version).1) ∧
    (∀ pa c, Event.write pa c ∉ (release_init fs hub_root service version).1) ∧
    (∀ pa, Event.mkdir pa ∉ (release_init fs hub_root service version).1) := by
  simp only [String.append_assoc] at h1 h2
  refine ⟨?_, ?_, ?_, ?_, ?_, ?_⟩ <;>
    simp [docs_init, release_init, echo_warning, h1, h2, String.append_assoc]

/-- C9 witness: with the docs and releases directories present, `docs init`
returns only the warning echo and exit 0. -/
theorem init_existing_dir_noop_witness :
    (fsAll.pathExists "/h/docs/svc/v1" = true) ∧
    docs_init fsAll "/h" "svc" "v1" =
      ([Event.echo "⚠️  이미 존재합니다: docs/svc/v1"], Except.ok ()) :=
  ⟨by decide,
   ((init_existing_dir_noop fsAll "/h" "svc" "v1" (by decide) (by decide)).1).trans
     (by decide)⟩

/-- C10: without any `--repo` option, `branch create` runs the branch
creation exactly in the frontend and backend submodules (the go submodule
is excluded by default); and an unknown `--repo` key is warned about and
skipped, the loop continuing with the remaining keys and the result being
that of the rest. -/
theorem branch_create_default_repos (env : ShellEnv) (fs : FS) (hub_root t d : String)
    (hfe : fs.pathExists (hub_root ++ "/" ++ "apps/decg-fe-monorepo") = true)
    (hbe : fs.pathExists (hub_root ++ "/" ++ "apps/decg-be-monorepo") = true)
    (rfe : env.rc (hub_root ++ "/" ++ "apps/decg-fe-monorepo")
      ("git checkout -b " ++ ("task/" ++ t ++ "-" ++ d)) = 0)
    (rbe : env.rc (hub_root ++ "/" ++ "apps/decg-be-monorepo")
      ("git checkout -b " ++ ("task/" ++ t ++ "-" ++ d)) = 0) :
    branch_create env fs hub_root t d none =
      ([Event.echo ("\n🌿 작업 브랜치 생성: " ++ ("task/" ++ t ++ "-" ++ d)),
        Event.echo "\n  📁 apps/decg-fe-monorepo...",
        Event.shell (hub_root ++ "/" ++ "apps/decg-fe-monorepo")
          ("git checkout -b " ++ ("task/" ++ t ++ "-" ++ d)) true,
        echo_success ("브랜치 생성됨: " ++ ("task/" ++ t ++ "-" ++ d)),
        Event.echo "\n  📁 apps/decg-be-monorepo...",
        Event.shell (hub_root ++ "/" ++ "apps/decg-be-monorepo")
          ("git checkout -b " ++ ("task/" ++ t ++ "-" ++ d)) true,
        echo_success ("브랜치 생성됨: " ++ ("task/" ++ t ++ "-" ++ d))],
       Except.ok ()) ∧
    (∀ (key : String) (rest : List String), repoLookup key repo_map = none →
      branchCreateLoop env fs hub_root ("task/" ++ t ++ "-" ++ d) (key :: rest) =
        (echo_warning ("알 수 없는 저장소: " ++ key) ::
          (branchCreateLoop env fs hub_root ("task/" ++ t ++ "-" ++ d) rest).1,
         (branchCreateLoop env fs hub_root ("task/" ++ t ++ "-" ++ d) rest).2)) := by
  constructor
  · simp [branch_create, branchCreateLoop, repoLookup, repo_map, run_shell,
      echo_success, echo_warning, hfe, hbe, rfe, rbe]
  · intro key rest hk
    simp [branchCreateLoop, hk, echo_warning]

/-- C10 witness: a concrete default run creates the task branch exactly in
the frontend and backend submodules. -/
theorem branch_create_default_repos_witness :
    (fsAll.pathExists "/h/apps/decg-fe-monorepo" = true) ∧
    branch_create env0 fsAll "/h" "DEA-001" "login-ui" none =
      ([Event.echo "\n🌿 작업 브랜치 생성: task/DEA-001-login-ui",
        Event.echo "\n  📁 apps/decg-fe-monorepo...",
        Event.shell "/h/apps/decg-fe-monorepo" "git checkout -b task/DEA-001-login-ui" true,
        Event.echo "✅ 브랜치 생성됨: task/DEA-001-login-ui",
        Event.echo "\n  📁 apps/decg-be-monorepo...",
        Event.shell "/h/apps/decg-be-monorepo" "git checkout -b task/DEA-001-login-ui" true,
        Event.echo "✅ 브랜치 생성됨: task/DEA-001-login-ui"],
       Except.ok ()) :=
  ⟨by decide,
   ((branch_create_default_repos env0 fsAll "/h" "DEA-001" "login-ui"
     (by decide) (by decide) (by decide) (by decide)).1).trans (by decide)⟩

end Decg
